import Mathlib

/-!
# Transport state machine of the tempo player

Shallow embedding of the playback-position emulation in `src/play.py`.
The run loop keeps three mutable values: `start_offset` (the logical
track time at which the last play-from call began), `time_since_play`
(seconds reported by the primitive since that call) and `paused`.
Keypress handlers and the per-tick loop check mutate this state and
issue calls to the playback primitive; those calls are modelled as an
explicit event list.  Seconds are modelled as rationals.
-/

namespace TempoPlayer

/-- Constant `SEEK_DISTANCE_SECONDS = 5` from play.py. -/
def SEEK_DISTANCE_SECONDS : ℚ := 5

/-- Constant `VOLUME_INCREMENT = 10` from play.py. -/
def VOLUME_INCREMENT : ℚ := 10

/-- The transport state threaded through the while loop of play.py:
`time_since_play`, `start_offset` and `paused`. -/
structure Session where
  start_offset : ℚ
  time_since_play : ℚ
  paused : Bool
  deriving DecidableEq

/-- Calls issued to the playback primitive (pygame mixer music):
`pgm.stop()`, `pgm.play(start=offset)` and `pgm.set_volume(v)`. -/
inductive PEvent where
  | stop : PEvent
  | playFrom : ℚ → PEvent
  | setVolume : ℚ → PEvent
  deriving DecidableEq

/-- The user-visible elapsed playback time `t = start_offset + time_since_play`
computed before rendering in play.py. -/
def logicalPosition (s : Session) : ℚ :=
  s.start_offset + s.time_since_play

/-- Top of the while loop in play.py: when `pgm.get_busy()` reports busy,
refresh `time_since_play = pgm.get_pos() / 1000`; otherwise the value is
left frozen. -/
def tick (busy : Bool) (get_pos_ms : ℚ) (s : Session) : Session :=
  if busy then { s with time_since_play := get_pos_ms / 1000 } else s

/-- The `K_SPACE` handler of play.py.  When paused: `pgm.play(start=start_offset)`
and unpause.  When playing: `start_offset = min(start_offset + time_since_play,
audio_length)`, `time_since_play = 0`, `pgm.stop()`, and pause. -/
def togglePause (audio_length : ℚ) (s : Session) : Session × List PEvent :=
  if s.paused then
    ({ s with paused := false }, [PEvent.playFrom s.start_offset])
  else
    ({ start_offset := min (s.start_offset + s.time_since_play) audio_length,
       time_since_play := 0,
       paused := true },
     [PEvent.stop])

/-- The `K_r` handler of play.py: `time_since_play = start_offset = 0`,
`pgm.stop()`, and if not paused `pgm.play(start=start_offset)`. -/
def restart (s : Session) : Session × List PEvent :=
  ({ start_offset := 0, time_since_play := 0, paused := s.paused },
   PEvent.stop :: if s.paused then [] else [PEvent.playFrom 0])

/-- The `KEY_LEFT` handler of play.py:
`start_offset = max(0, start_offset + time_since_play - SEEK_DISTANCE_SECONDS)`,
`time_since_play = 0`, `pgm.stop()`, replay from the new offset unless paused. -/
def seekBackward (s : Session) : Session × List PEvent :=
  let so := max 0 (s.start_offset + s.time_since_play - SEEK_DISTANCE_SECONDS)
  ({ start_offset := so, time_since_play := 0, paused := s.paused },
   PEvent.stop :: if s.paused then [] else [PEvent.playFrom so])

/-- The `KEY_RIGHT` handler of play.py:
`start_offset = min(start_offset + time_since_play + SEEK_DISTANCE_SECONDS,
audio_length)`, `time_since_play = 0`, `pgm.stop()`, replay unless paused. -/
def seekForward (audio_length : ℚ) (s : Session) : Session × List PEvent :=
  let so := min (s.start_offset + s.time_since_play + SEEK_DISTANCE_SECONDS)
             audio_length
  ({ start_offset := so, time_since_play := 0, paused := s.paused },
   PEvent.stop :: if s.paused then [] else [PEvent.playFrom so])

/-- The `KEY_UP` handler of play.py:
`pgm.set_volume(min(pgm.get_volume() + VOLUME_INCREMENT / 100, 1))`. -/
def volumeUp (v : ℚ) : ℚ :=
  min (v + VOLUME_INCREMENT / 100) 1

/-- The `KEY_DOWN` handler of play.py:
`pgm.set_volume(max(0, pgm.get_volume() - VOLUME_INCREMENT / 100))`. -/
def volumeDown (v : ℚ) : ℚ :=
  max 0 (v - VOLUME_INCREMENT / 100)

/-- The loop check of play.py, run after tick and key handling:
`if loop and not paused and not pgm.get_busy():` reset
`time_since_play = start_offset = 0` and `pgm.play(start=start_offset)`. -/
def applyLoop (loop busy : Bool) (s : Session) : Session × List PEvent :=
  if loop && !s.paused && !busy then
    ({ start_offset := 0, time_since_play := 0, paused := s.paused },
     [PEvent.playFrom 0])
  else
    (s, [])

/-- The progress fraction of the render step of play.py:
`progress = min(t / audio_length, 1)`.  The source divides with no
zero-guard; division by a zero duration raises in Python, modelled
here as `none`. -/
def progress (audio_length t : ℚ) : Option ℚ :=
  if audio_length = 0 then none else some (min (t / audio_length) 1)

/-- A seek direction: the `KEY_LEFT` or `KEY_RIGHT` branch. -/
inductive SeekDir where
  | back
  | fwd
  deriving DecidableEq

/-- The signed delta of a seek direction: -5 for back, +5 for fwd. -/
def seekDelta : SeekDir → ℚ
  | SeekDir.back => -SEEK_DISTANCE_SECONDS
  | SeekDir.fwd => SEEK_DISTANCE_SECONDS

/-- State effect of one seek keypress (events dropped). -/
def applySeek (audio_length : ℚ) (d : SeekDir) (s : Session) : Session :=
  match d with
  | SeekDir.back => (seekBackward s).1
  | SeekDir.fwd => (seekForward audio_length s).1

/-- State effect of a sequence of seek keypresses, first element first. -/
def applySeeks (audio_length : ℚ) (ds : List SeekDir) (s : Session) : Session :=
  ds.foldl (fun t d => applySeek audio_length d t) s

/-- Modelled from the spec wording of SeekBy(deltaSeconds):
`startOffset = clamp(startOffset + timeSincePlay + deltaSeconds, 0,
totalDuration)`, reset `timeSincePlay = 0`.  Kept separate from the
source-derived seek handlers so the two can be compared. -/
def seekBySpec (audio_length delta : ℚ) (s : Session) : Session :=
  { start_offset :=
      max 0 (min (s.start_offset + s.time_since_play + delta) audio_length),
    time_since_play := 0,
    paused := s.paused }

/-- A volume direction: the `KEY_UP` or `KEY_DOWN` branch. -/
inductive VolDir where
  | up
  | down
  deriving DecidableEq

/-- One volume keypress: the value passed to `pgm.set_volume`. -/
def adjustVolume : VolDir → ℚ → ℚ
  | VolDir.up, v => volumeUp v
  | VolDir.down, v => volumeDown v

/-- Volume after a sequence of volume keypresses, first element first. -/
def adjustVolumes (ds : List VolDir) (v : ℚ) : ℚ :=
  ds.foldl (fun w d => adjustVolume d w) v

/-- Combined per-tick loop state: the session and the volume last
handed to the primitive. -/
structure LoopState where
  session : Session
  volume : ℚ
  deriving DecidableEq

/-- The recognized transport keys of play.py (quit keys break the loop
and are not modelled as state transitions). -/
inductive Key where
  | space
  | r
  | left
  | right
  | up
  | down
  deriving DecidableEq

/-- Key dispatch of play.py, lines 126-175: each recognized key runs
exactly one handler. -/
def handleKey (audio_length : ℚ) (k : Key) (st : LoopState) :
    LoopState × List PEvent :=
  match k with
  | Key.space =>
      let p := togglePause audio_length st.session
      ({ st with session := p.1 }, p.2)
  | Key.r =>
      let p := restart st.session
      ({ st with session := p.1 }, p.2)
  | Key.left =>
      let p := seekBackward st.session
      ({ st with session := p.1 }, p.2)
  | Key.right =>
      let p := seekForward audio_length st.session
      ({ st with session := p.1 }, p.2)
  | Key.up =>
      let v := volumeUp st.volume
      ({ st with volume := v }, [PEvent.setVolume v])
  | Key.down =>
      let v := volumeDown st.volume
      ({ st with volume := v }, [PEvent.setVolume v])

/-- The startup error message of play.py for a failed download. -/
def downloadErrorMsg : String := "ERROR: Failed to download audio (invalid URL?)"

/-- The startup error message of play.py for a missing local file. -/
def fileNotFoundMsg : String := "ERROR: File not found"

/-- Outcome of source acquisition: either a fatal exit carrying the
user-facing message (SystemExit in play.py, a nonzero process exit),
or a loaded source that proceeds to the transport loop. -/
inductive StartupResult where
  | fatalExit : String → StartupResult
  | loaded : StartupResult
  deriving DecidableEq

/-- Python str.startswith, embedded as a prefix test on the character
list. -/
def strStartsWith (s p : String) : Bool :=
  p.data.isPrefixOf s.data

/-- Source acquisition of play.py, lines 41-81: a URL
(`file_or_url.startswith("http")`) whose download fails raises
SystemExit with the download message; a non-URL path that does not
exist raises SystemExit with the file-not-found message; otherwise
the loop is entered with a loaded source. -/
def resolveSource (file_or_url : String) (download_ok file_exists : Bool) :
    StartupResult :=
  if strStartsWith file_or_url "http" then
    if download_ok then StartupResult.loaded
    else StartupResult.fatalExit downloadErrorMsg
  else
    if file_exists then StartupResult.loaded
    else StartupResult.fatalExit fileNotFoundMsg

/-!
## Seek clamping
-/

/-- The state invariant preserved by the seek handlers: nonnegative offset
and elapsed time, with the logical position at most the track length. -/
def SeekInv (audio_length : ℚ) (s : Session) : Prop :=
  0 ≤ s.start_offset ∧ 0 ≤ s.time_since_play ∧
    s.start_offset + s.time_since_play ≤ audio_length

lemma seekInv_applySeek {D : ℚ} (d : SeekDir) {s : Session}
    (h : SeekInv D s) : SeekInv D (applySeek D d s) := by
  obtain ⟨h0, h1, h2⟩ := h
  have hD : 0 ≤ D := by linarith
  cases d with
  | back =>
      refine ⟨le_max_left 0 _, le_refl 0, ?_⟩
      show max 0 (s.start_offset + s.time_since_play - SEEK_DISTANCE_SECONDS)
          + 0 ≤ D
      rw [add_zero]
      refine max_le hD ?_
      show s.start_offset + s.time_since_play - 5 ≤ D
      linarith
  | fwd =>
      refine ⟨?_, le_refl 0, ?_⟩
      · show 0 ≤ min (s.start_offset + s.time_since_play
            + SEEK_DISTANCE_SECONDS) D
        refine le_min ?_ hD
        show (0 : ℚ) ≤ s.start_offset + s.time_since_play + 5
        linarith
      · show min (s.start_offset + s.time_since_play
            + SEEK_DISTANCE_SECONDS) D + 0 ≤ D
        rw [add_zero]
        exact min_le_right _ _

lemma seekInv_applySeeks {D : ℚ} (ds : List SeekDir) :
    ∀ {s : Session}, SeekInv D s → SeekInv D (applySeeks D ds s) := by
  induction ds with
  | nil => exact fun h => h
  | cons d ds ih => exact fun h => ih (seekInv_applySeek d h)

/-- C1 (amended): from a session with nonnegative offset and elapsed time
whose logical position does not exceed the track length, every sequence of
seek keypresses keeps start_offset within [0, audio_length], and each single
seek agrees with the clamp formula of the spec at its delta. -/
theorem C1_seek_clamped (D : ℚ) (s : Session)
    (h0 : 0 ≤ s.start_offset) (h1 : 0 ≤ s.time_since_play)
    (h2 : s.start_offset + s.time_since_play ≤ D) :
    (∀ ds : List SeekDir,
        0 ≤ (applySeeks D ds s).start_offset ∧
          (applySeeks D ds s).start_offset ≤ D) ∧
      ∀ d : SeekDir, applySeek D d s = seekBySpec D (seekDelta d) s := by
  have hD : 0 ≤ D := by linarith
  constructor
  · intro ds
    obtain ⟨g0, g1, g2⟩ := seekInv_applySeeks ds ⟨h0, h1, h2⟩
    exact ⟨g0, by linarith⟩
  · intro d
    cases d with
    | back =>
        have e : s.start_offset + s.time_since_play + -SEEK_DISTANCE_SECONDS
            = s.start_offset + s.time_since_play - SEEK_DISTANCE_SECONDS := by
          ring
        have hx : s.start_offset + s.time_since_play - SEEK_DISTANCE_SECONDS
            ≤ D := by
          show s.start_offset + s.time_since_play - 5 ≤ D
          linarith
        simp [applySeek, seekBackward, seekBySpec, seekDelta, e,
          min_eq_left hx]
    | fwd =>
        have hge : 0 ≤ min (s.start_offset + s.time_since_play
            + SEEK_DISTANCE_SECONDS) D := by
          refine le_min ?_ hD
          show (0 : ℚ) ≤ s.start_offset + s.time_since_play + 5
          linarith
        simp [applySeek, seekForward, seekBySpec, seekDelta,
          max_eq_right hge]

/-- C1 witness: the amended clamping theorem at a concrete session. -/
theorem C1_seek_clamped_witness :
    0 ≤ (applySeeks 100 [SeekDir.back, SeekDir.fwd, SeekDir.fwd]
        ⟨30, 2, false⟩).start_offset ∧
      (applySeeks 100 [SeekDir.back, SeekDir.fwd, SeekDir.fwd]
        ⟨30, 2, false⟩).start_offset ≤ 100 :=
  (C1_seek_clamped 100 ⟨30, 2, false⟩ (by norm_num) (by norm_num)
    (by norm_num)).1 _

/-- C1 counterexample: with track length 100 the unpaused session with
start_offset 0 and time_since_play 200 meets the claimed precondition, yet
the backward seek handler of play.py produces start_offset 195, which leaves
[0, 100] and differs from the claimed clamp. -/
theorem C1_seek_counterexample :
    (0 ≤ (⟨0, 200, false⟩ : Session).start_offset ∧
        (⟨0, 200, false⟩ : Session).start_offset ≤ 100 ∧
        0 ≤ (⟨0, 200, false⟩ : Session).time_since_play) ∧
      (applySeek 100 SeekDir.back ⟨0, 200, false⟩).start_offset = 195 ∧
      ¬ (applySeek 100 SeekDir.back ⟨0, 200, false⟩).start_offset ≤ 100 ∧
      applySeek 100 SeekDir.back ⟨0, 200, false⟩ ≠
        seekBySpec 100 (seekDelta SeekDir.back) ⟨0, 200, false⟩ := by
  norm_num [applySeek, seekBackward, seekBySpec, seekDelta,
    SEEK_DISTANCE_SECONDS, Session.mk.injEq, max_def, min_def]

/-!
## Pause and resume
-/

/-- C2 (amended): from an unpaused session whose logical position does not
exceed the track length, pressing space twice (pause then resume) restores
paused = false and leaves the logical position unchanged. -/
theorem C2_pause_resume (D : ℚ) (s : Session) (hp : s.paused = false)
    (h2 : s.start_offset + s.time_since_play ≤ D) :
    (togglePause D (togglePause D s).1).1.paused = false ∧
      logicalPosition (togglePause D (togglePause D s).1).1 =
        logicalPosition s := by
  simp [togglePause, hp, logicalPosition, min_eq_left h2]

/-- C2 witness: the pause-resume theorem at a concrete session. -/
theorem C2_pause_resume_witness :
    (togglePause 100 (togglePause 100 ⟨10, 5, false⟩).1).1.paused = false ∧
      logicalPosition (togglePause 100 (togglePause 100 ⟨10, 5, false⟩).1).1 =
        logicalPosition ⟨10, 5, false⟩ :=
  C2_pause_resume 100 ⟨10, 5, false⟩ rfl (by norm_num)

/-- C2 counterexample: the unpaused session with start_offset 0 and
time_since_play 200 on a track of length 100 has logical position 200 before
the two space presses and 100 afterwards: the pause fold clamps it. -/
theorem C2_pause_resume_counterexample :
    (⟨0, 200, false⟩ : Session).paused = false ∧
      logicalPosition (⟨0, 200, false⟩ : Session) = 200 ∧
      logicalPosition
        (togglePause 100 (togglePause 100 ⟨0, 200, false⟩).1).1 = 100 := by
  norm_num [togglePause, logicalPosition, min_def]

/-!
## Concrete trace
-/

/-- C3: the spec scenario on a track of length 100: a busy tick reporting 30
seconds gives logical position 30; seeking back 5 gives start_offset 25 with
time_since_play reset to 0; a busy tick reporting 10 seconds then gives
logical position 35. -/
theorem C3_trace :
    logicalPosition (tick true 30000 ⟨0, 0, false⟩) = 30 ∧
      (seekBackward (tick true 30000 ⟨0, 0, false⟩)).1.start_offset = 25 ∧
      (seekBackward (tick true 30000 ⟨0, 0, false⟩)).1.time_since_play = 0 ∧
      logicalPosition
        (tick true 10000
          (seekBackward (tick true 30000 ⟨0, 0, false⟩)).1) = 35 := by
  norm_num [logicalPosition, tick, seekBackward, SEEK_DISTANCE_SECONDS]

/-!
## Seek and pause commute on the committed offset
-/

/-- C4: for an unpaused session with nonnegative offset and elapsed time,
seeking forward then pausing commits the same start_offset as folding via
the pause first and then seeking forward, and both equal the spec clamp of
start_offset + time_since_play + 5. -/
theorem C4_seek_pause_commute (D : ℚ) (s : Session) (hp : s.paused = false)
    (h0 : 0 ≤ s.start_offset) (h1 : 0 ≤ s.time_since_play) (hD : 0 ≤ D) :
    (togglePause D (seekForward D s).1).1.start_offset =
        (seekForward D (togglePause D s).1).1.start_offset ∧
      (togglePause D (seekForward D s).1).1.start_offset =
        (seekBySpec D SEEK_DISTANCE_SECONDS s).start_offset := by
  have e1 : (seekForward D s).1 =
      ⟨min (s.start_offset + s.time_since_play + 5) D, 0, false⟩ := by
    simp [seekForward, hp, SEEK_DISTANCE_SECONDS]
  have e2 : (togglePause D s).1 =
      ⟨min (s.start_offset + s.time_since_play) D, 0, true⟩ := by
    simp [togglePause, hp]
  have key : min (min (s.start_offset + s.time_since_play + 5) D) D
      = min (min (s.start_offset + s.time_since_play) D + 5) D := by
    rcases le_total (s.start_offset + s.time_since_play) D with h | h
    · rw [min_eq_left h, min_eq_left (min_le_right _ _)]
    · rw [min_eq_right h, min_eq_right (by linarith :
        D ≤ s.start_offset + s.time_since_play + 5), min_self,
        min_eq_right (by linarith : D ≤ D + 5)]
  have hge : 0 ≤ min (s.start_offset + s.time_since_play + 5) D :=
    le_min (by linarith) hD
  rw [e1, e2]
  constructor
  · show min (min (s.start_offset + s.time_since_play + 5) D + 0) D =
      min (min (s.start_offset + s.time_since_play) D + 0
        + SEEK_DISTANCE_SECONDS) D
    rw [add_zero, add_zero]
    exact key
  · show min (min (s.start_offset + s.time_since_play + 5) D + 0) D =
      max 0 (min (s.start_offset + s.time_since_play
        + SEEK_DISTANCE_SECONDS) D)
    rw [add_zero, min_eq_left (min_le_right _ _)]
    exact (max_eq_right hge).symm

/-- C4 witness: the commuting offsets at a concrete session. -/
theorem C4_seek_pause_commute_witness :
    (togglePause 100 (seekForward 100 ⟨10, 5, false⟩).1).1.start_offset =
      (seekForward 100 (togglePause 100 ⟨10, 5, false⟩).1).1.start_offset :=
  (C4_seek_pause_commute 100 ⟨10, 5, false⟩ rfl (by norm_num) (by norm_num)
    (by norm_num)).1

/-!
## Loop wrap
-/

/-- C5: with loop enabled, an unpaused session and the primitive reporting
not busy, the loop check run after the tick resets start_offset and
time_since_play to 0 (logical position 0) and issues play from offset 0. -/
theorem C5_loop_wrap (s : Session) (get_pos_ms : ℚ) (hp : s.paused = false) :
    (applyLoop true false (tick false get_pos_ms s)).1.start_offset = 0 ∧
      (applyLoop true false (tick false get_pos_ms s)).1.time_since_play
        = 0 ∧
      logicalPosition (applyLoop true false (tick false get_pos_ms s)).1
        = 0 ∧
      (applyLoop true false (tick false get_pos_ms s)).2 =
        [PEvent.playFrom 0] := by
  simp [applyLoop, tick, logicalPosition, hp]

/-- C5 witness: the loop-wrap theorem at a concrete session. -/
theorem C5_loop_wrap_witness :
    (applyLoop true false (tick false 1234 ⟨40, 3, false⟩)).1.start_offset
        = 0 ∧
      (applyLoop true false (tick false 1234 ⟨40, 3, false⟩)).1.time_since_play
        = 0 ∧
      logicalPosition
        (applyLoop true false (tick false 1234 ⟨40, 3, false⟩)).1 = 0 ∧
      (applyLoop true false (tick false 1234 ⟨40, 3, false⟩)).2 =
        [PEvent.playFrom 0] :=
  C5_loop_wrap ⟨40, 3, false⟩ 1234 rfl

/-!
## Restart
-/

/-- C6: for every session, restart yields start_offset 0 and
time_since_play 0 (logical position 0), issues a stop, issues play from 0
exactly when the session is not paused, and leaves the paused flag as it
found it. -/
theorem C6_restart (s : Session) :
    (restart s).1.start_offset = 0 ∧
      (restart s).1.time_since_play = 0 ∧
      logicalPosition (restart s).1 = 0 ∧
      (restart s).1.paused = s.paused ∧
      PEvent.stop ∈ (restart s).2 ∧
      (PEvent.playFrom 0 ∈ (restart s).2 ↔ s.paused = false) := by
  cases h : s.paused <;> simp [restart, logicalPosition, h]

/-- C6 witness: the restart theorem at a concrete paused session. -/
theorem C6_restart_witness :
    (restart ⟨7, 3, true⟩).1.start_offset = 0 ∧
      (restart ⟨7, 3, true⟩).1.time_since_play = 0 ∧
      logicalPosition (restart ⟨7, 3, true⟩).1 = 0 ∧
      (restart ⟨7, 3, true⟩).1.paused = (⟨7, 3, true⟩ : Session).paused ∧
      PEvent.stop ∈ (restart ⟨7, 3, true⟩).2 ∧
      (PEvent.playFrom 0 ∈ (restart ⟨7, 3, true⟩).2 ↔
        (⟨7, 3, true⟩ : Session).paused = false) :=
  C6_restart ⟨7, 3, true⟩

/-!
## Volume saturation
-/

lemma adjustVolume_bounds (d : VolDir) (v : ℚ) (h0 : 0 ≤ v) (h1 : v ≤ 1) :
    0 ≤ adjustVolume d v ∧ adjustVolume d v ≤ 1 := by
  cases d with
  | up =>
      constructor
      · refine le_min ?_ zero_le_one
        show (0 : ℚ) ≤ v + 10 / 100
        linarith
      · exact min_le_right _ _
  | down =>
      refine ⟨le_max_left _ _, max_le zero_le_one ?_⟩
      show v - (10 : ℚ) / 100 ≤ 1
      linarith

lemma adjustVolumes_bounds (ds : List VolDir) :
    ∀ v : ℚ, 0 ≤ v → v ≤ 1 →
      0 ≤ adjustVolumes ds v ∧ adjustVolumes ds v ≤ 1 := by
  induction ds with
  | nil => exact fun v h0 h1 => ⟨h0, h1⟩
  | cons d ds ih =>
      intro v h0 h1
      obtain ⟨g0, g1⟩ := adjustVolume_bounds d v h0 h1
      exact ih (adjustVolume d v) g0 g1

/-- C7: from a starting volume within [0, 1], every sequence of volume
keypresses hands the primitive a volume within [0, 1], saturating at 1 going
up and at 0 going down. -/
theorem C7_volume_bounds (ds : List VolDir) (v : ℚ) (h0 : 0 ≤ v)
    (h1 : v ≤ 1) :
    (0 ≤ adjustVolumes ds v ∧ adjustVolumes ds v ≤ 1) ∧
      volumeUp 1 = 1 ∧ volumeDown 0 = 0 := by
  refine ⟨adjustVolumes_bounds ds v h0 h1, ?_, ?_⟩
  · rw [volumeUp, VOLUME_INCREMENT]
    norm_num
  · rw [volumeDown, VOLUME_INCREMENT]
    norm_num

/-- C7 witness: the volume-bounds theorem at a concrete starting volume. -/
theorem C7_volume_bounds_witness :
    0 ≤ adjustVolumes [VolDir.up, VolDir.up, VolDir.down] (1 / 2) ∧
      adjustVolumes [VolDir.up, VolDir.up, VolDir.down] (1 / 2) ≤ 1 :=
  (C7_volume_bounds [VolDir.up, VolDir.up, VolDir.down] (1 / 2)
    (by norm_num) (by norm_num)).1

/-!
## Startup errors
-/

/-- C8: a remote reference (identifier starting with http) whose download
fails produces a fatal exit carrying the download error message; a local
path that does not exist produces a fatal exit carrying the file-not-found
message; the two messages are distinct, and a fatal exit is never the
loaded outcome that enters the transport loop. -/
theorem C8_startup_errors (u f : String) (download_ok file_exists : Bool)
    (hu : strStartsWith u "http" = true)
    (hf : strStartsWith f "http" = false)
    (hd : download_ok = false) (he : file_exists = false) :
    resolveSource u download_ok file_exists =
        StartupResult.fatalExit downloadErrorMsg ∧
      resolveSource f download_ok file_exists =
        StartupResult.fatalExit fileNotFoundMsg ∧
      downloadErrorMsg ≠ fileNotFoundMsg ∧
      ∀ msg : String, StartupResult.fatalExit msg ≠ StartupResult.loaded := by
  subst hd he
  refine ⟨?_, ?_, ?_, fun msg h => StartupResult.noConfusion h⟩
  · simp [resolveSource, hu]
  · simp [resolveSource, hf]
  · simp [downloadErrorMsg, fileNotFoundMsg]

/-- C8 witness: the startup-error theorem at concrete identifiers. -/
theorem C8_startup_errors_witness :
    resolveSource "http://example.invalid/x" false false =
        StartupResult.fatalExit downloadErrorMsg ∧
      resolveSource "missing.flac" false false =
        StartupResult.fatalExit fileNotFoundMsg ∧
      downloadErrorMsg ≠ fileNotFoundMsg ∧
      ∀ msg : String, StartupResult.fatalExit msg ≠ StartupResult.loaded :=
  C8_startup_errors "http://example.invalid/x" "missing.flac" false false
    rfl rfl rfl rfl

/-!
## Frame condition on the paused flag
-/

/-- C9: the paused flag is changed only by the space handler: the tick, every
other key handler (restart, both seeks, both volume keys) and the loop check
leave paused exactly as they found it. -/
theorem C9_paused_frame (D get_pos_ms : ℚ) (st : LoopState)
    (busy loopFlag : Bool) (k : Key) (hk : k ≠ Key.space) :
    (tick busy get_pos_ms st.session).paused = st.session.paused ∧
      (handleKey D k st).1.session.paused = st.session.paused ∧
      (applyLoop loopFlag busy st.session).1.paused = st.session.paused := by
  refine ⟨?_, ?_, ?_⟩
  · cases busy <;> simp [tick]
  · cases k with
    | space => exact absurd rfl hk
    | r => simp [handleKey, restart]
    | left => simp [handleKey, seekBackward]
    | right => simp [handleKey, seekForward]
    | up => simp [handleKey]
    | down => simp [handleKey]
  · by_cases h : (loopFlag && !st.session.paused && !busy) = true
    · simp [applyLoop, h]
    · simp [applyLoop, h]

/-- C9 witness: the frame condition at a concrete state and the restart
key. -/
theorem C9_paused_frame_witness :
    (tick true 500 (⟨1, 2, false⟩ : Session)).paused =
        (⟨1, 2, false⟩ : Session).paused ∧
      (handleKey 100 Key.r ⟨⟨1, 2, false⟩, 1 / 2⟩).1.session.paused =
        (⟨1, 2, false⟩ : Session).paused ∧
      (applyLoop true true (⟨1, 2, false⟩ : Session)).1.paused =
        (⟨1, 2, false⟩ : Session).paused :=
  C9_paused_frame 100 500 ⟨⟨1, 2, false⟩, 1 / 2⟩ true true Key.r
    (by simp)

/-!
## Progress fraction
-/

/-- C10: with a positive track length and nonnegative offset and elapsed
time, the unguarded division of the render step is defined and the progress
fraction lies in [0, 1]; at track length zero the division is undefined. -/
theorem C10_progress_safe (D so tsp : ℚ) (hD : 0 < D) (h0 : 0 ≤ so)
    (h1 : 0 ≤ tsp) :
    progress D (so + tsp) = some (min ((so + tsp) / D) 1) ∧
      0 ≤ min ((so + tsp) / D) 1 ∧
      min ((so + tsp) / D) 1 ≤ 1 ∧
      ∀ t : ℚ, progress 0 t = none := by
  refine ⟨?_, ?_, min_le_right _ _, fun t => ?_⟩
  · simp [progress, ne_of_gt hD]
  · exact le_min (div_nonneg (by linarith) hD.le) zero_le_one
  · simp [progress]

/-- C10 witness: the progress theorem at a concrete state. -/
theorem C10_progress_safe_witness :
    progress 100 ((25 : ℚ) + 10) = some (min (((25 : ℚ) + 10) / 100) 1) :=
  (C10_progress_safe 100 25 10 (by norm_num) (by norm_num) (by norm_num)).1

end TempoPlayer
